import Mathlib

/-!
Shallow embedding of the tool-calling conversation loop of the
localllm-rust-tool-calling repository.

Source files embedded:
  src/llm/ollama.rs        (ChatMessage, ToolCall, FunctionCall, ChatResponse,
                            OllamaError, OllamaClient::chat)
  src/tools/websearch.rs   (SearchResult, WebSearchClient::search,
                            WebSearchClient::search_duckduckgo)
  src/tools/python_invoker.rs (PythonScriptResult, PythonInvokerError,
                            PythonInvoker::run_script)
  src/handler/query_handler.rs (QueryHandler::process_tool_calls,
                            QueryHandler::handle_chat)

External effects (the HTTP backend, the DuckDuckGo fetch, the spawned
python3 process) are modelled as oracle functions passed in explicitly;
everything the Rust code computes from the oracle results is translated
directly from the source.
-/

/-- serde_json values, as far as the handler inspects them.  serde_json
stores a JSON number as an unsigned integer, a negative integer or a
float; `as_u64` succeeds only on the unsigned-integer representation, so
the float payload is irrelevant to the embedded code and is omitted. -/
inductive Json where
  | null
  | bool (b : Bool)
  | posInt (n : Nat)
  | negInt (n : Int)
  | float
  | str (s : String)
  | arr (xs : List Json)
  | obj (fields : List (String × Json))
deriving Repr

/-- serde_json `Value::get(key)`: member lookup on objects, `None` otherwise. -/
def Json.get (j : Json) (key : String) : Option Json :=
  match j with
  | .obj fields => fields.lookup key
  | _ => none

/-- serde_json `Value::as_str`. -/
def Json.as_str : Json → Option String
  | .str s => some s
  | _ => none

/-- serde_json `Value::as_u64`: only an unsigned-integer number qualifies;
negative, fractional and non-numeric values give `None`. -/
def Json.as_u64 : Json → Option Nat
  | .posInt n => some n
  | _ => none

/-- serde_json `Value::as_array`. -/
def Json.as_array : Json → Option (List Json)
  | .arr xs => some xs
  | _ => none

/-- src/llm/ollama.rs `FunctionCall`. -/
structure FunctionCall where
  name : String
  arguments : Json
deriving Repr

/-- src/llm/ollama.rs `ToolCall`. -/
structure ToolCall where
  function : FunctionCall
deriving Repr

/-- src/llm/ollama.rs `ChatMessage`. -/
structure ChatMessage where
  role : String
  content : String
  tool_calls : Option (List ToolCall)
deriving Repr

/-- src/llm/ollama.rs `ChatResponse` (the `model` and `done` fields are
dead code in the handler and carried for fidelity). -/
structure ChatResponse where
  model : String
  message : ChatMessage
  done : Bool
deriving Repr

/-- src/llm/ollama.rs `OllamaError`. -/
inductive OllamaError where
  | RequestError (msg : String)
  | ApiError (msg : String)
deriving Repr

/-- The thiserror `Display` rendering of `OllamaError`. -/
def OllamaError.display : OllamaError → String
  | .RequestError msg => "Failed to send request to Ollama: " ++ msg
  | .ApiError msg => "Ollama API error: " ++ msg

/-- Outcome of the HTTP POST inside `OllamaClient::chat`, seen through the
reqwest calls the code makes: the send can fail, the status can be
non-success (with the body text possibly unreadable), or the 2xx body can
fail to parse as a `ChatResponse`. -/
inductive HttpChatOutcome where
  | unreachable (e : String)
  | badStatus (bodyText : Option String)
  | okUnparseable (e : String)
  | okParsed (r : ChatResponse)
deriving Repr

/-- src/llm/ollama.rs `OllamaClient::chat`, over the HTTP outcome oracle. -/
def ollamaChat (o : HttpChatOutcome) : Except OllamaError ChatResponse :=
  match o with
  | .unreachable e => .error (.RequestError e)
  | .badStatus t => .error (.ApiError (t.getD "Unknown error"))
  | .okUnparseable e => .error (.RequestError e)
  | .okParsed r => .ok r

/-- src/tools/websearch.rs `SearchResult`. -/
structure SearchResult where
  title : String
  content : String
  url : String
deriving Repr

/-- The first `.result__title a` element of a `.result` element: its
collected text and its optional `href` attribute. -/
structure TitleElem where
  text : String
  href : Option String
deriving Repr

/-- One `.result` element of the fetched DuckDuckGo html document, as far
as `search_duckduckgo` inspects it: the first `.result__title a` element
and the text of the first `.result__snippet` element, either of which may
be absent. -/
structure RawResult where
  title_elem : Option TitleElem
  snippet_elem : Option String
deriving Repr

/-- Rust `str::trim`: drop leading and trailing whitespace.  (Defined on
the character list so that it evaluates by kernel reduction; core
`String.trim` is extensionally the same but reduction-opaque.) -/
def rustTrim (s : String) : String :=
  ⟨((s.data.dropWhile Char.isWhitespace).reverse.dropWhile Char.isWhitespace).reverse⟩

/-- src/tools/websearch.rs `WebSearchClient::search_duckduckgo`, from the
parsed document on: take the first `count` `.result` elements, keep those
with both a title element and a snippet element and a non-empty href, and
trim title and snippet text. -/
def search_duckduckgo (doc : List RawResult) (count : Nat) : List SearchResult :=
  (doc.take count).filterMap fun r =>
    match r.title_elem, r.snippet_elem with
    | some title_elem, some snippet_elem =>
      let url := title_elem.href.getD ""
      if url = "" then none
      else some { title := rustTrim title_elem.text, content := rustTrim snippet_elem, url := url }
    | _, _ => none

/-- src/tools/websearch.rs `WebSearchClient::search` (engine is always
DuckDuckGo): the network fetch and html parse are the oracle `fetchf`,
returning either the final `WebSearchError` display string or the parsed
document. -/
def WebSearchClient.search (fetchf : String → Except String (List RawResult))
    (query : String) (count : Nat) : Except String (List SearchResult) :=
  match fetchf query with
  | .error e => .error e
  | .ok doc => .ok (search_duckduckgo doc count)

/-- src/tools/python_invoker.rs `PythonInvokerError`. -/
inductive PythonInvokerError where
  | CommandError (msg : String)
  | ScriptError (msg : String)
deriving Repr

/-- The thiserror `Display` rendering of `PythonInvokerError`. -/
def PythonInvokerError.display : PythonInvokerError → String
  | .CommandError msg => "Failed to execute Python script: " ++ msg
  | .ScriptError msg => "Script execution failed: " ++ msg

/-- src/tools/python_invoker.rs `PythonScriptResult`. -/
structure PythonScriptResult where
  stdout : String
  stderr : String
  exit_code : Option Int
deriving Repr

/-- The `std::process::Output` of the spawned python3 process: captured
stdout and stderr (already lossily decoded to text) and the exit code,
`none` when the process was terminated by a signal. -/
structure ProcessOutput where
  stdout : String
  stderr : String
  code : Option Int
deriving Repr

/-- `ExitStatus::success()`: on unix, true exactly when the exit code is 0. -/
def ProcessOutput.success (o : ProcessOutput) : Bool := o.code = some 0

/-- Rust `{:?}` Debug formatting of an `Option<i32>` exit code. -/
def debugOptionInt : Option Int → String
  | none => "None"
  | some n => "Some(" ++ toString n ++ ")"

/-- src/tools/python_invoker.rs `PythonInvoker::run_script`, over the
process-spawn oracle `os` (the result of `Command::new("python3")
.arg("-c").arg(script).args(args).output()`, with the io error already
rendered by `to_string`). -/
def run_script (os : String → List String → Except String ProcessOutput)
    (script : String) (args : List String) :
    Except PythonInvokerError PythonScriptResult :=
  match os script args with
  | .error e => .error (.CommandError e)
  | .ok output =>
    let stdout := output.stdout
    let stderr := output.stderr
    let exit_code := output.code
    if output.success then
      .ok { stdout := stdout, stderr := stderr, exit_code := exit_code }
    else
      .error (.ScriptError ("Exit Code: " ++ debugOptionInt exit_code ++
        "\nStdout: " ++ stdout ++ "\nStderr: " ++ stderr))

/-- The two tool capabilities as the handler invokes them: `search` is
`self.search_client.search(query, count)` with the error already rendered
by the `WebSearchError` Display, `python` is
`self.python_invoker.run_script(script, args)`. -/
structure ToolEnv where
  search : String → Nat → Except String (List SearchResult)
  python : String → List String → Except PythonInvokerError PythonScriptResult

/-- The rendering of search results built inline in `process_tool_calls`
(lines 123-127): each result as `Title: <t>\nURL: <u>\nContent: <c>\n---`,
joined with newlines. -/
def renderSearchResults (results : List SearchResult) : String :=
  String.intercalate "\n" (results.map fun r =>
    "Title: " ++ r.title ++ "\nURL: " ++ r.url ++ "\nContent: " ++ r.content ++ "\n---")

/-- The rendering of a python result built inline in `process_tool_calls`
(line 147). -/
def renderPythonResult (result : PythonScriptResult) : String :=
  "Exit Code: " ++ debugOptionInt result.exit_code ++
    "\nStdout: " ++ result.stdout ++ "\nStderr: " ++ result.stderr

/-- The `for tool_call in tool_calls` loop body of
`QueryHandler::process_tool_calls`: each iteration matches the tool name,
dispatches when the required string argument is present and returns
immediately; otherwise (unknown name, or required argument missing or not
a string) it falls through to the next entry.  `Ok(None)` after the loop. -/
def processList (env : ToolEnv) : List ToolCall → Except String (Option (String × String))
  | [] => .ok none
  | tool_call :: rest =>
    let args := tool_call.function.arguments
    if tool_call.function.name = "websearch" then
      match (args.get "query").bind Json.as_str with
      | some query =>
        let count := ((args.get "count").bind Json.as_u64).getD 5
        match env.search query count with
        | .ok results => .ok (some (tool_call.function.name, renderSearchResults results))
        | .error e => .error ("Web search failed: " ++ e)
      | none => processList env rest
    else if tool_call.function.name = "python_invoker" then
      match (args.get "script").bind Json.as_str with
      | some script =>
        let script_args :=
          (((args.get "args").bind Json.as_array).map fun arr =>
            arr.filterMap Json.as_str).getD []
        match env.python script script_args with
        | .ok result => .ok (some (tool_call.function.name, renderPythonResult result))
        | .error e => .error ("Python script execution failed: " ++ e.display)
      | none => processList env rest
    else processList env rest

/-- src/handler/query_handler.rs `QueryHandler::process_tool_calls`. -/
def process_tool_calls (env : ToolEnv) (chat_response : ChatResponse) :
    Except String (Option (String × String)) :=
  match chat_response.message.tool_calls with
  | some tool_calls => processList env tool_calls
  | none => .ok none

/-- The terminal value of `QueryHandler::handle_chat`: either
`HttpResponse::Ok` with the `ChatApiResponse` body, or
`HttpResponse::InternalServerError` with the `ChatApiResponse` body. -/
inductive LoopResult where
  | ok (response : String)
  | internalServerError (response : String)
deriving Repr, DecidableEq

/-- The transcript seeded at the top of `handle_chat`: a system message
with the date/time interpolated into the prompt, then the user message. -/
def initialMessages (system_prompt datetime message : String) : List ChatMessage :=
  [ { role := "system",
      content := system_prompt ++ " Current date and time: " ++ datetime,
      tool_calls := none },
    { role := "user", content := message, tool_calls := none } ]

/-- The `loop` of `QueryHandler::handle_chat`.  The backend is the oracle
`gw`, indexed by the round number `k` (how many gateway calls have been
made so far) and applied to the transcript the code passes to
`OllamaClient::chat`; `env k` gives the capability behaviours for round
`k`.  `fuel` bounds the number of iterations we unfold (the Rust loop is
unbounded; `none` means the fuel ran out with the loop still running).
On termination the result is paired with the total number of gateway
calls made, i.e. the final round number plus one. -/
def chatLoop (gw : Nat → List ChatMessage → Except OllamaError ChatResponse)
    (env : Nat → ToolEnv) :
    Nat → Nat → List ChatMessage → Option (LoopResult × Nat)
  | 0, _, _ => none
  | fuel + 1, k, messages =>
    match gw k messages with
    | .error e => some (.internalServerError ("Error: " ++ e.display), k + 1)
    | .ok chat_response =>
      match process_tool_calls (env k) chat_response with
      | .ok (some (_, tool_output)) =>
        chatLoop gw env fuel (k + 1)
          (messages ++
            [ { role := "assistant",
                content := chat_response.message.content,
                tool_calls := chat_response.message.tool_calls },
              { role := "tool", content := tool_output, tool_calls := none } ])
      | .ok none => some (.ok chat_response.message.content, k + 1)
      | .error e => some (.internalServerError ("Error: " ++ e), k + 1)

/-- src/handler/query_handler.rs `QueryHandler::handle_chat`: seed the
transcript and run the loop from round 0.  The target model identifier is
absorbed into the gateway oracle. -/
def handle_chat (gw : Nat → List ChatMessage → Except OllamaError ChatResponse)
    (env : Nat → ToolEnv) (fuel : Nat) (system_prompt datetime message : String) :
    Option (LoopResult × Nat) :=
  chatLoop gw env fuel 0 (initialMessages system_prompt datetime message)

/-- Ghost instrumentation: the transcript `handle_chat` passes to the
gateway on round `k`, reconstructed by replaying the loop body on the
oracle answers.  Rounds that fail or end the loop leave it unchanged. -/
def messagesAt (gw : Nat → List ChatMessage → Except OllamaError ChatResponse)
    (env : Nat → ToolEnv) (init : List ChatMessage) : Nat → List ChatMessage
  | 0 => init
  | k + 1 =>
    match gw k (messagesAt gw env init k) with
    | .error _ => messagesAt gw env init k
    | .ok chat_response =>
      match process_tool_calls (env k) chat_response with
      | .ok (some (_, tool_output)) =>
        messagesAt gw env init k ++
          [ { role := "assistant",
              content := chat_response.message.content,
              tool_calls := chat_response.message.tool_calls },
            { role := "tool", content := tool_output, tool_calls := none } ]
      | _ => messagesAt gw env init k

/-- A ToolRequest that `process_tool_calls` actually dispatches when it
reaches it: a recognized capability name whose required string argument
(`query` for websearch, `script` for python_invoker) is present. -/
def dispatchable (tc : ToolCall) : Bool :=
  if tc.function.name = "websearch" then
    ((tc.function.arguments.get "query").bind Json.as_str).isSome
  else if tc.function.name = "python_invoker" then
    ((tc.function.arguments.get "script").bind Json.as_str).isSome
  else false

theorem processList_cons_skip (env : ToolEnv) (tc : ToolCall) (rest : List ToolCall)
    (h : dispatchable tc = false) :
    processList env (tc :: rest) = processList env rest := by
  unfold dispatchable at h
  conv_lhs => unfold processList
  by_cases h1 : tc.function.name = "websearch"
  · rw [if_pos h1] at h
    rw [if_pos h1]
    cases hq : (tc.function.arguments.get "query").bind Json.as_str with
    | none => rfl
    | some q => rw [hq] at h; simp at h
  · rw [if_neg h1] at h
    rw [if_neg h1]
    by_cases h2 : tc.function.name = "python_invoker"
    · rw [if_pos h2] at h
      rw [if_pos h2]
      cases hs : (tc.function.arguments.get "script").bind Json.as_str with
      | none => rfl
      | some s => rw [hs] at h; simp at h
    · rw [if_neg h2]

theorem processList_cons_hit (env : ToolEnv) (tc : ToolCall) (rest : List ToolCall)
    (h : dispatchable tc = true) :
    processList env (tc :: rest) = processList env [tc] := by
  unfold dispatchable at h
  conv_lhs => unfold processList
  conv_rhs => unfold processList
  by_cases h1 : tc.function.name = "websearch"
  · rw [if_pos h1] at h
    rw [if_pos h1, if_pos h1]
    cases hq : (tc.function.arguments.get "query").bind Json.as_str with
    | none => rw [hq] at h; simp at h
    | some q => rfl
  · rw [if_neg h1] at h
    rw [if_neg h1, if_neg h1]
    by_cases h2 : tc.function.name = "python_invoker"
    · rw [if_pos h2] at h
      rw [if_pos h2, if_pos h2]
      cases hs : (tc.function.arguments.get "script").bind Json.as_str with
      | none => rw [hs] at h; simp at h
      | some s => rfl
    · rw [if_neg h2] at h; simp at h

theorem processList_find (env : ToolEnv) (l : List ToolCall) :
    processList env l =
      ((l.find? dispatchable).elim (Except.ok none) fun tc => processList env [tc]) := by
  induction l with
  | nil => rfl
  | cons tc rest ih =>
    cases h : dispatchable tc with
    | true =>
      rw [processList_cons_hit env tc rest h]
      simp [List.find?, h]
    | false =>
      rw [processList_cons_skip env tc rest h, ih]
      simp [List.find?, h]

theorem processList_unrecognized (env : ToolEnv) (l : List ToolCall)
    (h : ∀ tc ∈ l, tc.function.name ≠ "websearch" ∧ tc.function.name ≠ "python_invoker") :
    processList env l = .ok none := by
  induction l with
  | nil => rfl
  | cons tc rest ih =>
    have htc := h tc (List.mem_cons_self tc rest)
    have hd : dispatchable tc = false := by
      unfold dispatchable
      rw [if_neg htc.1, if_neg htc.2]
    rw [processList_cons_skip env tc rest hd]
    exact ih fun t ht => h t (List.mem_cons_of_mem tc ht)

theorem process_tool_calls_no_calls (env : ToolEnv) (r : ChatResponse)
    (h : r.message.tool_calls = none ∨ r.message.tool_calls = some []) :
    process_tool_calls env r = .ok none := by
  unfold process_tool_calls
  rcases h with h | h <;> rw [h]
  rfl

/-- Round `j` of a run dispatches a tool: the gateway answers with a turn
whose processing returns a rendered tool outcome. -/
def Dispatches (gw : Nat → List ChatMessage → Except OllamaError ChatResponse)
    (env : Nat → ToolEnv) (init : List ChatMessage) (j : Nat) : Prop :=
  ∃ r nm out, gw j (messagesAt gw env init j) = .ok r ∧
    process_tool_calls (env j) r = .ok (some (nm, out))

theorem messagesAt_succ_of_dispatch (gw : Nat → List ChatMessage → Except OllamaError ChatResponse)
    (env : Nat → ToolEnv) (init : List ChatMessage) (k : Nat) (r : ChatResponse)
    (nm out : String)
    (h1 : gw k (messagesAt gw env init k) = .ok r)
    (h2 : process_tool_calls (env k) r = .ok (some (nm, out))) :
    messagesAt gw env init (k + 1) = messagesAt gw env init k ++
      [ { role := "assistant", content := r.message.content,
          tool_calls := r.message.tool_calls },
        { role := "tool", content := out, tool_calls := none } ] := by
  conv_lhs => unfold messagesAt
  simp only [h1, h2]

theorem messagesAt_succ_extends (gw : Nat → List ChatMessage → Except OllamaError ChatResponse)
    (env : Nat → ToolEnv) (init : List ChatMessage) (k : Nat) :
    ∃ t, messagesAt gw env init (k + 1) = messagesAt gw env init k ++ t := by
  cases hgw : gw k (messagesAt gw env init k) with
  | error e =>
    refine ⟨[], ?_⟩
    conv_lhs => unfold messagesAt
    simp only [hgw, List.append_nil]
  | ok r =>
    cases hp : process_tool_calls (env k) r with
    | error e =>
      refine ⟨[], ?_⟩
      conv_lhs => unfold messagesAt
      simp only [hgw, hp, List.append_nil]
    | ok o =>
      match o with
      | none =>
        refine ⟨[], ?_⟩
        conv_lhs => unfold messagesAt
        simp only [hgw, hp, List.append_nil]
      | some (nm, out) =>
        refine ⟨[ { role := "assistant", content := r.message.content,
                    tool_calls := r.message.tool_calls },
                  { role := "tool", content := out, tool_calls := none } ], ?_⟩
        conv_lhs => unfold messagesAt
        simp only [hgw, hp]

theorem chatLoop_step_of_dispatch (gw : Nat → List ChatMessage → Except OllamaError ChatResponse)
    (env : Nat → ToolEnv) (init : List ChatMessage) (fuel k : Nat) (r : ChatResponse)
    (nm out : String)
    (h1 : gw k (messagesAt gw env init k) = .ok r)
    (h2 : process_tool_calls (env k) r = .ok (some (nm, out))) :
    chatLoop gw env (fuel + 1) k (messagesAt gw env init k) =
      chatLoop gw env fuel (k + 1) (messagesAt gw env init (k + 1)) := by
  rw [messagesAt_succ_of_dispatch gw env init k r nm out h1 h2]
  conv_lhs => unfold chatLoop
  simp only [h1, h2]

theorem chatLoop_advance (gw : Nat → List ChatMessage → Except OllamaError ChatResponse)
    (env : Nat → ToolEnv) (init : List ChatMessage) :
    ∀ d fuel k, (∀ j, k ≤ j → j < k + d → Dispatches gw env init j) →
      chatLoop gw env (fuel + d) k (messagesAt gw env init k) =
        chatLoop gw env fuel (k + d) (messagesAt gw env init (k + d)) := by
  intro d
  induction d with
  | zero => intro fuel k _; rfl
  | succ d ih =>
    intro fuel k hdisp
    obtain ⟨r, nm, out, h1, h2⟩ := hdisp k (Nat.le_refl k) (by omega)
    have hstep : chatLoop gw env ((fuel + d) + 1) k (messagesAt gw env init k) =
        chatLoop gw env (fuel + d) (k + 1) (messagesAt gw env init (k + 1)) :=
      chatLoop_step_of_dispatch gw env init (fuel + d) k r nm out h1 h2
    have heq : fuel + (d + 1) = (fuel + d) + 1 := rfl
    rw [heq, hstep]
    have hrec := ih fuel (k + 1) (fun j hj1 hj2 => hdisp j (by omega) (by omega))
    have heq2 : (k + 1) + d = k + (d + 1) := by omega
    rw [heq2] at hrec
    exact hrec

/-- Capability environment for the C1 counterexample: the search capability
fails loudly if it is ever invoked, the python capability succeeds. -/
def envC1 : ToolEnv :=
  { search := fun _ _ => .error "never invoked",
    python := fun _ _ => .ok { stdout := "second", stderr := "", exit_code := some 0 } }

/-- A websearch ToolRequest with no `query` argument. -/
def tcNoQuery : ToolCall :=
  { function := { name := "websearch", arguments := .obj [("count", .posInt 3)] } }

/-- A python_invoker ToolRequest with a `script` argument. -/
def tcScript : ToolCall :=
  { function := { name := "python_invoker",
                  arguments := .obj [("script", .str "print(1)")] } }

/-- Assistant turn carrying two ToolRequests: first a websearch without a
`query`, then a python_invoker with a `script`. -/
def respC1 : ChatResponse :=
  { model := "m",
    message := { role := "assistant", content := "",
                 tool_calls := some [tcNoQuery, tcScript] },
    done := true }

/-- The same turn with only the first ToolRequest. -/
def respC1only : ChatResponse :=
  { model := "m",
    message := { role := "assistant", content := "",
                 tool_calls := some [tcNoQuery] },
    done := true }

/-- C1 counterexample: on an Assistant Turn whose first ToolRequest is a
websearch with no `query` and whose second is a valid python_invoker, the
loop dispatches the SECOND entry (the outcome is the python capability
result), while the first entry alone would have produced no dispatch at
all.  So it is not true that only the first ToolRequest in the list is
dispatched and every later entry ignored. -/
theorem C1_counterexample :
    process_tool_calls envC1 respC1 =
      .ok (some ("python_invoker", "Exit Code: Some(0)\nStdout: second\nStderr: ")) ∧
    process_tool_calls envC1 respC1only = .ok none := by
  exact ⟨rfl, rfl⟩

/-- C1 (amended): per round, `process_tool_calls` dispatches at most one
ToolRequest, namely the FIRST entry of the returned list that names a
recognized capability and carries its required string argument (`query`
for websearch, `script` for python_invoker); entries before it are
silently skipped and entries after it are ignored for that round.  If no
entry qualifies, nothing is dispatched. -/
theorem C1_first_dispatchable_only (env : ToolEnv) (resp : ChatResponse) :
    process_tool_calls env resp =
      (((resp.message.tool_calls.getD []).find? dispatchable).elim (Except.ok none)
        fun tc => processList env [tc]) := by
  unfold process_tool_calls
  cases htc : resp.message.tool_calls with
  | none => rfl
  | some l => simpa using processList_find env l

/-- Capability environment for the C2 counterexample: both capabilities
fail loudly if ever invoked. -/
def envC2 : ToolEnv :=
  { search := fun _ _ => .error "boom",
    python := fun _ _ => .error (.CommandError "boom") }

/-- Assistant turn carrying a single websearch ToolRequest whose argument
map is missing the required `query` field. -/
def respC2 : ChatResponse :=
  { model := "m",
    message := { role := "assistant", content := "c", tool_calls := some [tcNoQuery] },
    done := true }

/-- C2 counterexample: a dispatched round whose only ToolRequest is a
websearch missing the required `query` produces `Ok(None)` — the round is
treated as if no tool call were made — rather than any `CapabilityFailure`
(`Err`); no descriptive failure message exists and the request does not
terminate as a failure. -/
theorem C2_counterexample :
    process_tool_calls envC2 respC2 = .ok none := by
  exact rfl

/-- C2 (amended): a ToolRequest naming a recognized capability whose
required field is missing or is not a string is silently skipped: the
capability is never invoked with the missing required field, no failure
of any kind is produced for it, and processing falls through to the
remaining ToolRequests (the loop proceeds as if that entry were absent). -/
theorem C2_missing_required_skipped (env : ToolEnv) (tc : ToolCall) (rest : List ToolCall)
    (h : (tc.function.name = "websearch" ∧
            (tc.function.arguments.get "query").bind Json.as_str = none) ∨
         (tc.function.name = "python_invoker" ∧
            (tc.function.arguments.get "script").bind Json.as_str = none)) :
    processList env (tc :: rest) = processList env rest := by
  apply processList_cons_skip
  unfold dispatchable
  rcases h with ⟨h1, h2⟩ | ⟨h1, h2⟩
  · rw [if_pos h1, h2]
    rfl
  · have h1w : tc.function.name ≠ "websearch" := by rw [h1]; decide
    rw [if_neg h1w, if_pos h1, h2]
    rfl

/-- C2 witness: the amended statement at the concrete counterexample
input, with the hypothesis discharged by computation. -/
theorem C2_missing_required_skipped_witness :
    (tcNoQuery.function.name = "websearch" ∧
      (tcNoQuery.function.arguments.get "query").bind Json.as_str = none) ∧
    processList envC2 [tcNoQuery] = processList envC2 [] := by
  exact ⟨⟨rfl, rfl⟩,
    C2_missing_required_skipped envC2 tcNoQuery [] (Or.inl ⟨rfl, rfl⟩)⟩

/-- A ToolRequest naming the websearch capability with the given argument map. -/
def websearchCall (args : Json) : ToolCall :=
  { function := { name := "websearch", arguments := args } }

/-- A ToolRequest naming the python_invoker capability with the given argument map. -/
def pythonCall (args : Json) : ToolCall :=
  { function := { name := "python_invoker", arguments := args } }

/-- C10: a websearch dispatch whose `count` value is not representable as a
non-negative integer (`as_u64` fails: negative, fractional or non-numeric)
behaves exactly as if `count` were absent — the value is silently
discarded and the default of 5 results is used; the dispatch itself does
not fail on account of the bad `count`. -/
theorem C10_bad_count_defaults (env : ToolEnv) (q : String) (v : Json)
    (rest : List ToolCall) (hv : v.as_u64 = none) :
    processList env (websearchCall (.obj [("query", .str q), ("count", v)]) :: rest) =
      processList env (websearchCall (.obj [("query", .str q)]) :: rest) := by
  conv_lhs => unfold processList
  conv_rhs => unfold processList
  simp [websearchCall, Json.get, List.lookup, Json.as_str, hv]

/-- C10 witness: with a fractional `count` the dispatch still succeeds and
uses the default; concretely evaluated on a one-result document. -/
theorem C10_bad_count_defaults_witness :
    (Json.float.as_u64 = none) ∧
    processList
        { search := fun _ _ => Except.ok [], python := fun _ _ => .error (.CommandError "x") }
        [websearchCall (.obj [("query", .str "q"), ("count", Json.float)])] =
      processList
        { search := fun _ _ => Except.ok [], python := fun _ _ => .error (.CommandError "x") }
        [websearchCall (.obj [("query", .str "q")])] := by
  exact ⟨rfl, C10_bad_count_defaults _ "q" Json.float [] rfl⟩

theorem search_duckduckgo_prefix (doc : List RawResult) (cnt : Nat) :
    search_duckduckgo doc cnt ++ search_duckduckgo (doc.drop cnt) (doc.drop cnt).length =
      search_duckduckgo doc doc.length := by
  unfold search_duckduckgo
  rw [List.take_length, List.take_length, ← List.filterMap_append, List.take_append_drop]

/-- C7: a successful search dispatch renders the newline-joined list of the
results computed by `search_duckduckgo doc cnt`; those results number at
most `cnt` and form a prefix of the full upstream ranking (the results for
`cnt = doc.length`), and with `cnt = 0` or an empty result set the
dispatch succeeds with empty rendered text instead of failing. -/
theorem C7_search_render (env : ToolEnv) (fetchf : String → Except String (List RawResult))
    (doc : List RawResult) (q : String) (cnt : Nat) (rest : List ToolCall)
    (resp : ChatResponse)
    (henv : env.search = WebSearchClient.search fetchf)
    (hf : fetchf q = .ok doc)
    (hresp : resp.message.tool_calls =
      some (websearchCall (.obj [("query", .str q), ("count", .posInt cnt)]) :: rest)) :
    process_tool_calls env resp =
      .ok (some ("websearch", renderSearchResults (search_duckduckgo doc cnt))) ∧
    (search_duckduckgo doc cnt).length ≤ cnt ∧
    (∃ t, search_duckduckgo doc cnt ++ t = search_duckduckgo doc doc.length) ∧
    (cnt = 0 → renderSearchResults (search_duckduckgo doc cnt) = "") ∧
    (search_duckduckgo doc cnt = [] → renderSearchResults (search_duckduckgo doc cnt) = "") := by
  refine ⟨?_, ?_, ?_, ?_, ?_⟩
  · unfold process_tool_calls
    rw [hresp]
    conv_lhs => unfold processList
    simp [websearchCall, Json.get, List.lookup, Json.as_str, Json.as_u64, henv,
      WebSearchClient.search, hf]
  · unfold search_duckduckgo
    calc (List.filterMap _ (doc.take cnt)).length
        ≤ (doc.take cnt).length := List.length_filterMap_le _ _
      _ ≤ cnt := by rw [List.length_take]; omega
  · exact ⟨search_duckduckgo (doc.drop cnt) (doc.drop cnt).length,
      search_duckduckgo_prefix doc cnt⟩
  · intro h
    subst h
    rfl
  · intro h
    rw [h]
    rfl

/-- Concrete fetched document for the C7 witness: one complete result, one
result whose title link has no href, one result with no title element. -/
def docC7 : List RawResult :=
  [ ⟨some ⟨" T1 ", some "http://a"⟩, some " C1 "⟩,
    ⟨some ⟨"T2", none⟩, some "C2"⟩,
    ⟨none, some "C3"⟩ ]

/-- Concrete fetch oracle for the C7 witness. -/
def fetchC7 : String → Except String (List RawResult) := fun _ => .ok docC7

/-- Concrete capability environment for the C7 witness. -/
def envC7 : ToolEnv :=
  { search := WebSearchClient.search fetchC7,
    python := fun _ _ => .error (.CommandError "x") }

/-- Concrete assistant turn for the C7 witness. -/
def respC7 : ChatResponse :=
  { model := "m",
    message := { role := "assistant", content := "",
                 tool_calls := some
                   [websearchCall (.obj [("query", .str "w"), ("count", .posInt 5)])] },
    done := true }

/-- C7 witness: the theorem evaluated at a concrete document; only the
complete result survives and is rendered in the documented shape. -/
theorem C7_search_render_witness :
    process_tool_calls envC7 respC7 =
      .ok (some ("websearch", "Title: T1\nURL: http://a\nContent: C1\n---")) ∧
    (search_duckduckgo docC7 5).length ≤ 5 := by
  have h := C7_search_render envC7 fetchC7 docC7 "w" 5 [] respC7 rfl rfl rfl
  refine ⟨?_, h.2.1⟩
  rw [h.1]
  rfl

/-- C6: when the first gateway response is an Assistant Turn carrying no
ToolRequest (absent or empty list), the loop terminates after exactly one
gateway call and the response body is that Turn's content verbatim. -/
theorem C6_immediate_answer (gw : Nat → List ChatMessage → Except OllamaError ChatResponse)
    (env : Nat → ToolEnv) (sp dt msg : String) (fuel : Nat) (r : ChatResponse)
    (hg : gw 0 (initialMessages sp dt msg) = .ok r)
    (hr : r.message.tool_calls = none ∨ r.message.tool_calls = some [])
    (hfuel : 0 < fuel) :
    handle_chat gw env fuel sp dt msg = some (.ok r.message.content, 1) := by
  obtain ⟨m, rfl⟩ : ∃ m, fuel = m + 1 := ⟨fuel - 1, by omega⟩
  unfold handle_chat
  conv_lhs => unfold chatLoop
  simp only [hg, process_tool_calls_no_calls (env 0) r hr]

/-- Concrete tool-free assistant turn for the C6 witness. -/
def respC6 : ChatResponse :=
  { model := "m",
    message := { role := "assistant", content := "hello", tool_calls := none },
    done := true }

/-- C6 witness: a concrete run with a tool-free first answer. -/
theorem C6_immediate_answer_witness :
    handle_chat (fun _ _ => Except.ok respC6) (fun _ => envC1) 7 "p" "d" "u" =
      some (.ok "hello", 1) := by
  exact C6_immediate_answer _ _ "p" "d" "u" 7 respC6 rfl (Or.inl rfl) (by omega)

/-- C9: the transcript is seeded, before the first gateway call, with
exactly a System Turn (the instructional prompt with the date/time
interpolated) followed by a User Turn carrying the incoming message, and
every later round only ever appends to the transcript: each successive
transcript is the previous one followed by some (possibly empty) suffix,
so no existing turn is mutated, removed or reordered. -/
theorem C9_seed_and_append_only (gw : Nat → List ChatMessage → Except OllamaError ChatResponse)
    (env : Nat → ToolEnv) (sp dt msg : String) :
    messagesAt gw env (initialMessages sp dt msg) 0 =
      [ { role := "system", content := sp ++ " Current date and time: " ++ dt,
          tool_calls := none },
        { role := "user", content := msg, tool_calls := none } ] ∧
    (∀ fuel, handle_chat gw env fuel sp dt msg =
      chatLoop gw env fuel 0 (messagesAt gw env (initialMessages sp dt msg) 0)) ∧
    ∀ k, ∃ t, messagesAt gw env (initialMessages sp dt msg) (k + 1) =
      messagesAt gw env (initialMessages sp dt msg) k ++ t := by
  exact ⟨rfl, fun _ => rfl, fun k => messagesAt_succ_extends gw env _ k⟩

theorem chatLoop_reach (gw : Nat → List ChatMessage → Except OllamaError ChatResponse)
    (env : Nat → ToolEnv) (init : List ChatMessage) (k fuel : Nat) (hk : k ≤ fuel)
    (hdisp : ∀ j, j < k → Dispatches gw env init j) :
    chatLoop gw env fuel 0 init =
      chatLoop gw env (fuel - k) k (messagesAt gw env init k) := by
  have heq : fuel = (fuel - k) + k := by omega
  conv_lhs => rw [heq]
  have h := chatLoop_advance gw env init k (fuel - k) 0
    (fun j _ hj => hdisp j (by omega))
  rw [Nat.zero_add] at h
  exact h

/-- C3: when round `k` of a run (after `k` dispatching rounds) returns an
Assistant Turn all of whose ToolRequests name unrecognized capabilities,
the loop raises no error and treats the turn as tool-free: it terminates
after `k + 1` gateway calls with that Turn's content (possibly empty) as
the final answer. -/
theorem C3_unrecognized_ignored (gw : Nat → List ChatMessage → Except OllamaError ChatResponse)
    (env : Nat → ToolEnv) (sp dt msg : String) (k fuel : Nat) (r : ChatResponse)
    (hdisp : ∀ j, j < k → Dispatches gw env (initialMessages sp dt msg) j)
    (hg : gw k (messagesAt gw env (initialMessages sp dt msg) k) = .ok r)
    (hun : ∀ tc ∈ r.message.tool_calls.getD [],
      tc.function.name ≠ "websearch" ∧ tc.function.name ≠ "python_invoker")
    (hfuel : k < fuel) :
    handle_chat gw env fuel sp dt msg = some (.ok r.message.content, k + 1) := by
  have hp : process_tool_calls (env k) r = .ok none := by
    unfold process_tool_calls
    cases htc : r.message.tool_calls with
    | none => rfl
    | some l =>
      rw [htc] at hun
      exact processList_unrecognized (env k) l hun
  unfold handle_chat
  rw [chatLoop_reach gw env (initialMessages sp dt msg) k fuel (by omega) hdisp]
  obtain ⟨m, hm⟩ : ∃ m, fuel - k = m + 1 := ⟨fuel - k - 1, by omega⟩
  rw [hm]
  conv_lhs => unfold chatLoop
  simp only [hg, hp]

/-- Assistant turn for the C3 witness: empty content and a single
ToolRequest naming a capability that does not exist. -/
def respC3 : ChatResponse :=
  { model := "m",
    message := { role := "assistant", content := "",
                 tool_calls := some [⟨⟨"sql_query", .obj []⟩⟩] },
    done := true }

/-- C3 witness: a run whose first answer carries only an unrecognized tool
call still terminates with an answer — here the empty string. -/
theorem C3_unrecognized_ignored_witness :
    handle_chat (fun _ _ => Except.ok respC3) (fun _ => envC1) 4 "p" "d" "u" =
      some (.ok "", 1) := by
  exact C3_unrecognized_ignored _ _ "p" "d" "u" 0 4 respC3
    (fun j hj => absurd hj (by omega)) rfl
    (fun tc h => by
      rw [List.mem_singleton.mp h]
      exact ⟨by decide, by decide⟩)
    (by omega)

/-- C8: when round `k` of a run (after `k` dispatching rounds) fails at
the Model Gateway — backend unreachable, non-success status, or
unparseable payload, i.e. any failing `ollamaChat` outcome — the loop
retries nothing and terminates at once, after exactly `k + 1` gateway
calls, with a server-error response whose body is the `Error: ` echo of
the underlying error message; the body is built from the error alone, so
no partial transcript is exposed. -/
theorem C8_gateway_failure_terminal (gw : Nat → List ChatMessage → Except OllamaError ChatResponse)
    (env : Nat → ToolEnv) (sp dt msg : String) (k fuel : Nat) (o : HttpChatOutcome)
    (e : OllamaError)
    (hdisp : ∀ j, j < k → Dispatches gw env (initialMessages sp dt msg) j)
    (ho : ollamaChat o = .error e)
    (hg : gw k (messagesAt gw env (initialMessages sp dt msg) k) = ollamaChat o)
    (hfuel : k < fuel) :
    handle_chat gw env fuel sp dt msg =
      some (.internalServerError ("Error: " ++ e.display), k + 1) := by
  unfold handle_chat
  rw [chatLoop_reach gw env (initialMessages sp dt msg) k fuel (by omega) hdisp]
  obtain ⟨m, hm⟩ : ∃ m, fuel - k = m + 1 := ⟨fuel - k - 1, by omega⟩
  rw [hm]
  conv_lhs => unfold chatLoop
  rw [hg, ho]

/-- C8 witness: an unreachable backend on the first call yields the echoed
transport error after exactly one gateway call. -/
theorem C8_gateway_failure_terminal_witness :
    handle_chat (fun _ _ => ollamaChat (.unreachable "connection refused"))
      (fun _ => envC1) 3 "p" "d" "u" =
      some (.internalServerError
        "Error: Failed to send request to Ollama: connection refused", 1) := by
  have h := C8_gateway_failure_terminal
    (fun _ _ => ollamaChat (.unreachable "connection refused")) (fun _ => envC1)
    "p" "d" "u" 0 3
    (.unreachable "connection refused") (.RequestError "connection refused")
    (fun j hj => absurd hj (by omega)) rfl rfl (by omega)
  rw [h]
  rfl

/-- C5: in a run whose rounds `0 .. N-1` each return a single ToolRequest
that dispatches successfully and whose round `N` returns a tool-free
Assistant Turn, every tool round grows the transcript by exactly two
turns — the original Assistant Turn with its ToolRequest list verbatim,
then one tool-role Turn carrying the rendered outcome — so the transcript
passed to round `j` has length `2 + 2*j`, and the loop terminates making
exactly `N + 1` gateway calls with the final Turn's content as answer. -/
theorem C5_transcript_and_rounds (gw : Nat → List ChatMessage → Except OllamaError ChatResponse)
    (env : Nat → ToolEnv) (sp dt msg : String) (N fuel : Nat)
    (r : Nat → ChatResponse) (tc : Nat → ToolCall) (nm out : Nat → String)
    (hstep : ∀ j, j < N →
      gw j (messagesAt gw env (initialMessages sp dt msg) j) = .ok (r j) ∧
      (r j).message.tool_calls = some [tc j] ∧
      process_tool_calls (env j) (r j) = .ok (some (nm j, out j)))
    (hfin : gw N (messagesAt gw env (initialMessages sp dt msg) N) = .ok (r N) ∧
      process_tool_calls (env N) (r N) = .ok none)
    (hfuel : N < fuel) :
    (∀ j, j < N → messagesAt gw env (initialMessages sp dt msg) (j + 1) =
      messagesAt gw env (initialMessages sp dt msg) j ++
        [ { role := "assistant", content := (r j).message.content,
            tool_calls := some [tc j] },
          { role := "tool", content := out j, tool_calls := none } ]) ∧
    (∀ j, j ≤ N → (messagesAt gw env (initialMessages sp dt msg) j).length = 2 + 2 * j) ∧
    handle_chat gw env fuel sp dt msg = some (.ok (r N).message.content, N + 1) := by
  have hM : ∀ j, j < N → messagesAt gw env (initialMessages sp dt msg) (j + 1) =
      messagesAt gw env (initialMessages sp dt msg) j ++
        [ { role := "assistant", content := (r j).message.content,
            tool_calls := some [tc j] },
          { role := "tool", content := out j, tool_calls := none } ] := by
    intro j hj
    obtain ⟨h1, htc, h2⟩ := hstep j hj
    have h := messagesAt_succ_of_dispatch gw env (initialMessages sp dt msg) j
      (r j) (nm j) (out j) h1 h2
    rw [htc] at h
    exact h
  refine ⟨hM, ?_, ?_⟩
  · intro j
    induction j with
    | zero => intro _; rfl
    | succ j ih =>
      intro hj
      rw [hM j (by omega), List.length_append, ih (by omega)]
      simp
      omega
  · unfold handle_chat
    rw [chatLoop_reach gw env (initialMessages sp dt msg) N fuel (by omega)
      (fun j hj => ⟨r j, nm j, out j, (hstep j hj).1, (hstep j hj).2.2⟩)]
    obtain ⟨m, hm⟩ : ∃ m, fuel - N = m + 1 := ⟨fuel - N - 1, by omega⟩
    rw [hm]
    conv_lhs => unfold chatLoop
    simp only [hfin.1, hfin.2]

/-- Assistant turn for round 0 of the C5 witness: a single websearch call. -/
def respC5a : ChatResponse :=
  { model := "m",
    message := { role := "assistant", content := "searching",
                 tool_calls := some [websearchCall (.obj [("query", .str "w")])] },
    done := false }

/-- Tool-free assistant turn for round 1 of the C5 witness. -/
def respC5b : ChatResponse :=
  { model := "m",
    message := { role := "assistant", content := "done", tool_calls := none },
    done := true }

/-- Gateway oracle for the C5 witness: one tool round, then a final turn. -/
def gwC5 : Nat → List ChatMessage → Except OllamaError ChatResponse :=
  fun k _ => if k = 0 then .ok respC5a else .ok respC5b

/-- Capability environment for the C5 witness: the search succeeds with an
empty result list (rendered as the empty string). -/
def envC5 : ToolEnv :=
  { search := fun _ _ => Except.ok [],
    python := fun _ _ => .error (.CommandError "x") }

/-- Responses per round for the C5 witness. -/
def rC5 : Nat → ChatResponse := fun k => if k = 0 then respC5a else respC5b

/-- C5 witness: an N = 1 run — two gateway calls, answer from the final
turn, and a 4-turn transcript entering round 1. -/
theorem C5_transcript_and_rounds_witness :
    handle_chat gwC5 (fun _ => envC5) 5 "p" "d" "u" = some (.ok "done", 2) ∧
    (messagesAt gwC5 (fun _ => envC5) (initialMessages "p" "d" "u") 1).length = 2 + 2 * 1 := by
  have h := C5_transcript_and_rounds gwC5 (fun _ => envC5) "p" "d" "u" 1 5
    rC5 (fun _ => websearchCall (.obj [("query", .str "w")]))
    (fun _ => "websearch") (fun _ => "")
    (fun j hj => by
      have hj0 : j = 0 := by omega
      subst hj0
      exact ⟨rfl, rfl, rfl⟩)
    ⟨rfl, rfl⟩ (by omega)
  exact ⟨h.2.2, h.2.1 1 (by omega)⟩

/-- C4: a python_invoker script whose process exits with a non-zero code
`c` makes `run_script` return a `ScriptError` (a `CapabilityFailure`, not
a success) whose message embeds the exit code and the captured stdout and
stderr verbatim, and the loop then terminates the whole request as a
server-error failure during that round — after `k + 1` gateway calls,
without appending anything to the transcript for the model to see. -/
theorem C4_nonzero_exit_terminates (gw : Nat → List ChatMessage → Except OllamaError ChatResponse)
    (env : Nat → ToolEnv) (sp dt msg : String) (k fuel : Nat)
    (os : String → List String → Except String ProcessOutput)
    (script : String) (out : ProcessOutput) (c : Int) (r : ChatResponse)
    (hdisp : ∀ j, j < k → Dispatches gw env (initialMessages sp dt msg) j)
    (hg : gw k (messagesAt gw env (initialMessages sp dt msg) k) = .ok r)
    (htc : r.message.tool_calls = some [pythonCall (.obj [("script", .str script)])])
    (henv : (env k).python = run_script os)
    (hos : os script [] = .ok out)
    (hcode : out.code = some c)
    (hnz : c ≠ 0)
    (hfuel : k < fuel) :
    run_script os script [] = .error (.ScriptError
      ("Exit Code: " ++ ("Some(" ++ toString c ++ ")") ++
        "\nStdout: " ++ out.stdout ++ "\nStderr: " ++ out.stderr)) ∧
    handle_chat gw env fuel sp dt msg = some (.internalServerError
      ("Error: " ++ ("Python script execution failed: " ++ ("Script execution failed: " ++
        ("Exit Code: " ++ ("Some(" ++ toString c ++ ")") ++
          "\nStdout: " ++ out.stdout ++ "\nStderr: " ++ out.stderr)))), k + 1) := by
  have hfail : out.success = false := by
    simp only [ProcessOutput.success, hcode]
    simp [hnz]
  have hrs : run_script os script [] = .error (.ScriptError
      ("Exit Code: " ++ ("Some(" ++ toString c ++ ")") ++
        "\nStdout: " ++ out.stdout ++ "\nStderr: " ++ out.stderr)) := by
    unfold run_script
    rw [hos]
    simp only [hfail, hcode, debugOptionInt, Bool.false_eq_true, if_false]
  have hp : process_tool_calls (env k) r = .error
      ("Python script execution failed: " ++ ("Script execution failed: " ++
        ("Exit Code: " ++ ("Some(" ++ toString c ++ ")") ++
          "\nStdout: " ++ out.stdout ++ "\nStderr: " ++ out.stderr))) := by
    unfold process_tool_calls
    rw [htc]
    conv_lhs => unfold processList
    simp [pythonCall, Json.get, List.lookup, Json.as_str, henv, hrs,
      PythonInvokerError.display]
  refine ⟨hrs, ?_⟩
  unfold handle_chat
  rw [chatLoop_reach gw env (initialMessages sp dt msg) k fuel (by omega) hdisp]
  obtain ⟨m, hm⟩ : ∃ m, fuel - k = m + 1 := ⟨fuel - k - 1, by omega⟩
  rw [hm]
  conv_lhs => unfold chatLoop
  simp only [hg, hp]

/-- Process-spawn oracle for the C4 witness: the python process exits 2
with output on both streams. -/
def osC4 : String → List String → Except String ProcessOutput :=
  fun _ _ => .ok { stdout := "out", stderr := "err", code := some 2 }

/-- Assistant turn for the C4 witness carrying one python_invoker call. -/
def respC4 : ChatResponse :=
  { model := "m",
    message := { role := "assistant", content := "",
                 tool_calls := some [pythonCall (.obj [("script", .str "import sys; sys.exit(2)")])] },
    done := false }

/-- Capability environment for the C4 witness. -/
def envC4 : ToolEnv :=
  { search := fun _ _ => .error "never invoked", python := run_script osC4 }

/-- C4 witness: the failing script terminates the request at once with the
verbatim exit code, stdout and stderr embedded in the error body. -/
theorem C4_nonzero_exit_terminates_witness :
    handle_chat (fun _ _ => Except.ok respC4) (fun _ => envC4) 3 "p" "d" "u" =
      some (.internalServerError
        "Error: Python script execution failed: Script execution failed: Exit Code: Some(2)\nStdout: out\nStderr: err",
        1) := by
  have h := C4_nonzero_exit_terminates (fun _ _ => Except.ok respC4) (fun _ => envC4)
    "p" "d" "u" 0 3 osC4 "import sys; sys.exit(2)"
    { stdout := "out", stderr := "err", code := some 2 } 2 respC4
    (fun j hj => absurd hj (by omega)) rfl rfl rfl rfl rfl (by omega) (by omega)
  rw [h.2]
  rfl
